import Mathlib

/-!
Verification development for the StormAudio processor integration.

The definitions below are a shallow embedding of the repository's core
logic: the command codec and volume conversions of
`custom_components/stormaudio/media_player.py` (class `StormAudioAPI`),
the read/drain loops of `send_query` and `_clear_initial_responses`,
the poll cycle of `StormAudioDataUpdateCoordinator._async_update_data`,
the power-on burst loop `_poll_power_on_sequence`, the legacy poll cycle
of `coordinator.py` (`StormAudioCoordinator._async_update_data`), and the
`state` property of `StormAudioMediaPlayer`.

Machine reals (Python floats) are modelled as rationals; counterexample
inputs are chosen to be exactly representable in binary floating point so
the rational computation coincides with the Python one.
-/

/- Constants from `const.py`. -/

def STATE_ON : String := "on"

def STATE_OFF : String := "off"

def CMD_POWER_QUERY : String := "ssp.power"

def CMD_VOLUME_SET : String := "ssp.vol."

def CMD_VOLUME_QUERY : String := "ssp.vol"

def CMD_MUTE_QUERY : String := "ssp.mute"

def CMD_INPUT_QUERY : String := "ssp.input"

def CMD_INPUT_LIST : String := "ssp.input.list"

def CMD_PROC_STATE : String := "ssp.procstate"

/-- Python `int()` applied to a real number: truncation toward zero. -/
def pyInt (q : ℚ) : ℤ := if q < 0 then ⌈q⌉ else ⌊q⌋

/-- The command string built by `StormAudioAPI.set_volume_level`:
`storm_volume = int((level * 100) - 100)`, then
`f"{CMD_VOLUME_SET}[{storm_volume}]"`. -/
def setVolumeCommand (level : ℚ) : String :=
  CMD_VOLUME_SET ++ "[" ++ toString (pyInt (level * 100 - 100)) ++ "]"

/-- Modelled from the spec's words (for comparison with the code):
volume normalized-to-device is `clamp(round(level*100) - 100, -100, 0)`,
with `round` rounding to nearest. -/
def specVolumeDevice (level : ℚ) : ℤ :=
  max (-100) (min 0 (round (level * 100) - 100))

/-- The command string the spec's formula would produce. -/
def specVolumeCommandStr (level : ℚ) : String :=
  "ssp.vol.[" ++ toString (specVolumeDevice level) ++ "]"

/-- On [0,1] the code's truncation toward zero agrees with
`⌈level*100⌉ - 100` (the argument is nonpositive there). -/
lemma pyInt_vol_eq (L : ℚ) (h0 : 0 ≤ L) (h1 : L ≤ 1) :
    pyInt (L * 100 - 100) = ⌈L * 100⌉ - 100 := by
  by_cases hneg : L * 100 - 100 < 0
  · rw [pyInt, if_pos hneg]
    have h : (L * 100 - 100 : ℚ) = L * 100 - ((100 : ℤ) : ℚ) := by push_cast; ring
    rw [h, Int.ceil_sub_int]
  · rw [pyInt, if_neg hneg]
    have hL : L = 1 := by nlinarith [not_lt.mp hneg]
    subst hL
    norm_num

/-- The device value the code produces stays inside the device range
[-100, 0] for levels in [0,1] even without an explicit clamp. -/
lemma pyInt_vol_bounds (L : ℚ) (h0 : 0 ≤ L) (h1 : L ≤ 1) :
    -100 ≤ pyInt (L * 100 - 100) ∧ pyInt (L * 100 - 100) ≤ 0 := by
  rw [pyInt_vol_eq L h0 h1]
  constructor
  · have h : (0:ℤ) ≤ ⌈L * 100⌉ := Int.ceil_nonneg (by positivity)
    omega
  · have h : ⌈L * 100⌉ ≤ (100 : ℤ) := Int.ceil_le.mpr (by push_cast; nlinarith)
    omega

/-- C1 (counterexample): the claim says the device value is
`clamp(round(level*100) - 100, -100, 0)`; the code computes
`int((level*100) - 100)` (truncation toward zero, no clamp).  At
`level = 5/16 = 0.3125` (exactly representable as a binary float, so the
Python computation coincides with the rational one) the code sends
`ssp.vol.[-68]` while the claimed formula yields `ssp.vol.[-69]`. -/
theorem c1_counterexample :
    setVolumeCommand (5/16) = "ssp.vol.[-68]" ∧
    specVolumeCommandStr (5/16) = "ssp.vol.[-69]" ∧
    setVolumeCommand (5/16) ≠ specVolumeCommandStr (5/16) := by
  have h1 : setVolumeCommand (5/16) = "ssp.vol.[-68]" := by
    have hv : pyInt (5/16 * 100 - 100) = -68 := by
      rw [pyInt, if_pos (by norm_num), Int.ceil_eq_iff]
      constructor <;> norm_num
    rw [setVolumeCommand, hv]
    rfl
  have h2 : specVolumeCommandStr (5/16) = "ssp.vol.[-69]" := by
    have hr : (round ((5:ℚ)/16 * 100) : ℤ) = 31 := by
      rw [round_eq, Int.floor_eq_iff]
      constructor <;> norm_num
    rw [specVolumeCommandStr, specVolumeDevice, hr]
    rfl
  refine ⟨h1, h2, ?_⟩
  rw [h1, h2]
  decide

/-- C1 (amended): for every level in [0,1], `set_volume_level(level)`
sends exactly `ssp.vol.[<v>]` where `v = int(level*100 - 100)` truncated
toward zero (equal to `⌈level*100⌉ - 100`), which lies in the device range
[-100, 0] without any explicit clamp; in particular `set_volume(0.0)`
sends `ssp.vol.[-100]`. -/
theorem c1_volume_command_amended (L : ℚ) (h0 : 0 ≤ L) (h1 : L ≤ 1) :
    setVolumeCommand L = "ssp.vol." ++ "[" ++ toString (⌈L * 100⌉ - 100) ++ "]"
    ∧ -100 ≤ pyInt (L * 100 - 100) ∧ pyInt (L * 100 - 100) ≤ 0
    ∧ setVolumeCommand 0 = "ssp.vol.[-100]" := by
  obtain ⟨hb1, hb2⟩ := pyInt_vol_bounds L h0 h1
  refine ⟨?_, hb1, hb2, ?_⟩
  · rw [setVolumeCommand, pyInt_vol_eq L h0 h1]
    rfl
  · have hv : pyInt ((0:ℚ) * 100 - 100) = -100 := by
      have h : ((0:ℚ) * 100 - 100) = (((-100 : ℤ)) : ℚ) := by norm_num
      rw [pyInt, if_pos (by norm_num), h, Int.ceil_intCast]
    rw [setVolumeCommand, hv]
    rfl

/-- Closed instance of `c1_volume_command_amended` at `L = 1/2`. -/
theorem c1_amended_witness :
    setVolumeCommand (1/2) = "ssp.vol." ++ "[" ++ toString (⌈(1/2 : ℚ) * 100⌉ - 100) ++ "]"
    ∧ -100 ≤ pyInt ((1/2 : ℚ) * 100 - 100) ∧ pyInt ((1/2 : ℚ) * 100 - 100) ≤ 0
    ∧ setVolumeCommand 0 = "ssp.vol.[-100]" :=
  c1_volume_command_amended (1/2) (by norm_num) (by norm_num)

/- ## C9: volume round-trip -/

/-- `StormAudioMediaPlayer.volume_level`: device→normalized conversion,
`max(0.0, min(1.0, (volume + 100) / 100))`. -/
def deviceToNormalized (db : ℚ) : ℚ := max 0 (min 1 ((db + 100) / 100))

/-- `StormAudioAPI.set_volume_level`'s normalized→device conversion,
`int((level * 100) - 100)`. -/
def normalizedToDevice (level : ℚ) : ℤ := pyInt (level * 100 - 100)

/-- Clamp to [0,1], as in the claim. -/
def clampQ (L : ℚ) : ℚ := max 0 (min 1 L)

/-- C9: for every level L in [0,1], converting L to the device volume and
back yields a value equal to `clamp(L)` within one device step (1/100). -/
theorem c9_volume_round_trip (L : ℚ) (h0 : 0 ≤ L) (h1 : L ≤ 1) :
    |deviceToNormalized ((normalizedToDevice L : ℤ) : ℚ) - clampQ L| ≤ 1/100 := by
  have hc : clampQ L = L := by
    rw [clampQ, min_eq_right h1, max_eq_right h0]
  have hd : normalizedToDevice L = ⌈L * 100⌉ - 100 := pyInt_vol_eq L h0 h1
  have hub : ⌈L * 100⌉ ≤ (100 : ℤ) := Int.ceil_le.mpr (by push_cast; nlinarith)
  have hlb : (0:ℤ) ≤ ⌈L * 100⌉ := Int.ceil_nonneg (by positivity)
  have hubq : ((⌈L * 100⌉ : ℤ) : ℚ) ≤ 100 := by exact_mod_cast hub
  have hlbq : (0 : ℚ) ≤ ((⌈L * 100⌉ : ℤ) : ℚ) := by exact_mod_cast hlb
  have hval : deviceToNormalized ((normalizedToDevice L : ℤ) : ℚ)
      = ((⌈L * 100⌉ : ℤ) : ℚ) / 100 := by
    rw [hd, deviceToNormalized]
    have harg : ((((⌈L * 100⌉ - 100 : ℤ)) : ℚ) + 100) / 100
        = ((⌈L * 100⌉ : ℤ) : ℚ) / 100 := by push_cast; ring
    rw [harg, min_eq_right (by linarith), max_eq_right (by positivity)]
  have hle : L * 100 ≤ ((⌈L * 100⌉ : ℤ) : ℚ) := Int.le_ceil (L * 100)
  have hlt : ((⌈L * 100⌉ : ℤ) : ℚ) < L * 100 + 1 := Int.ceil_lt_add_one (L * 100)
  rw [hval, hc, abs_of_nonneg (by linarith)]
  linarith

/-- Closed instance of `c9_volume_round_trip` at `L = 1/2`. -/
theorem c9_witness :
    |deviceToNormalized ((normalizedToDevice (1/2) : ℤ) : ℚ) - clampQ (1/2)| ≤ 1/100 :=
  c9_volume_round_trip (1/2) (by norm_num) (by norm_num)

/- ## C10: caller-facing media player state -/

/-- The host framework's media-player state values relevant here
(`MediaPlayerState`); an explicit `unknownState` value is included so
"never reported unknown" is expressible. -/
inductive MPState where
  | off
  | buffering
  | on
  | unknownState
deriving DecidableEq, Repr

/-- `StormAudioMediaPlayer.state`: OFF when `power_state == "off"`, else
BUFFERING when `processor_state == 1`, ON when `processor_state == 2`,
and OFF in every remaining case. -/
def playerState (power_state : Option String) (processor_state : Option Int) : MPState :=
  if power_state = some STATE_OFF then .off
  else if processor_state = some 1 then .buffering
  else if processor_state = some 2 then .on
  else .off

/-- C10: whenever `processor_state` is neither 1 nor 2 — including when
power or processor state is unknown/absent — the reported state is OFF,
never an unknown state. -/
theorem c10_state_off (power : Option String) (proc : Option Int)
    (h1 : proc ≠ some 1) (h2 : proc ≠ some 2) :
    playerState power proc = MPState.off := by
  unfold playerState
  by_cases hp : power = some STATE_OFF
  · rw [if_pos hp]
  · rw [if_neg hp, if_neg h1, if_neg h2]

/-- Closed instance of `c10_state_off` with both fields absent. -/
theorem c10_witness : playerState none none = MPState.off :=
  c10_state_off none none (by decide) (by decide)

/- ## Socket read events

`send_query` and `_clear_initial_responses` repeatedly call
`readline(timeout)` while tracking elapsed wall-clock time.  A socket
trace is modelled as a list of read events: each event is the outcome of
one `readline` call together with the wall-clock time that call took,
measured in integer milliseconds (so the code's 3-second and 2-second
windows are 3000 and 2000). -/

/-- Outcome of one `readline` call: a decoded line, end-of-stream
(`readline` returned empty bytes), or an `asyncio.TimeoutError`. -/
inductive ReadOut where
  | line (s : String)
  | eofSig
  | timedOut
deriving DecidableEq, Repr

/-- One read event: wall-clock duration of the call (milliseconds) plus
its outcome. -/
structure ReadEv where
  dur : ℤ
  out : ReadOut
deriving DecidableEq, Repr

/-- Total wall-clock time of a list of read events. -/
def sumDur : List ReadEv → ℤ
  | [] => 0
  | e :: es => e.dur + sumDur es

/-- Character-list test that `l` begins with `p`. -/
def leadsWith : List Char → List Char → Bool
  | _, [] => true
  | [], _ :: _ => false
  | c :: cs, d :: ds => c == d && leadsWith cs ds

/-- Python `str.startswith(pat)`. -/
def startsWithStr (s pat : String) : Bool := leadsWith s.toList pat.toList

/-- Python `str.strip()`: removes leading and trailing whitespace. -/
def pyStrip (s : String) : String :=
  String.mk (((s.toList.dropWhile Char.isWhitespace).reverse.dropWhile
    Char.isWhitespace).reverse)

/-- `StormAudioAPI._get_expected_response_prefix`. -/
def expectedPfx (command : String) : String :=
  if command = CMD_POWER_QUERY then "ssp.power."
  else if command = CMD_VOLUME_QUERY then "ssp.vol."
  else if command = CMD_MUTE_QUERY then "ssp.mute."
  else if command = CMD_INPUT_QUERY then "ssp.input."
  else if command = CMD_PROC_STATE then "ssp.procstate."
  else "ssp."

/-- The read loop of `StormAudioAPI.send_query`: while less than 3
seconds have elapsed, read a line; end-of-stream breaks out (returning
none); a per-read timeout continues; a stripped line is returned iff it
starts with the expected reply string, otherwise it is discarded. -/
def readLoop (pfx : String) : List ReadEv → ℤ → Option String
  | [], _ => none
  | e :: rest, t =>
    if 3000 ≤ t then none
    else
      match e.out with
      | ReadOut.timedOut => readLoop pfx rest (t + e.dur)
      | ReadOut.eofSig => none
      | ReadOut.line s =>
        if startsWithStr (pyStrip s) pfx then some (pyStrip s)
        else readLoop pfx rest (t + e.dur)

/-- Result of one `send_query` call: the reply (if any), how many times
`connect()` was invoked, and the commands actually written. -/
structure QueryResult where
  reply : Option String
  connectAttempts : Nat
  written : List String
deriving DecidableEq, Repr

/-- `StormAudioAPI.send_query`: if `_writer` is unset, call `connect()`
once and return `None` on failure; otherwise write the command and run
the read loop.  `connectResult n` is the outcome of the n-th `connect()`
attempt of this call. -/
def sendQueryFull (connected : Bool) (connectResult : Nat → Bool)
    (evts : List ReadEv) (command : String) : QueryResult :=
  if connected then
    ⟨readLoop (expectedPfx command) evts 0, 0, [command]⟩
  else if connectResult 0 then
    ⟨readLoop (expectedPfx command) evts 0, 1, [command]⟩
  else
    ⟨none, 1, []⟩

/-- Modelled from the spec: "ensures connected (lazy connect, retried
once on failure)" — after a failed connect attempt, one further attempt
is made before the call gives up. -/
def sendQuerySpecRetry (connected : Bool) (connectResult : Nat → Bool)
    (evts : List ReadEv) (command : String) : QueryResult :=
  if connected then
    ⟨readLoop (expectedPfx command) evts 0, 0, [command]⟩
  else if connectResult 0 then
    ⟨readLoop (expectedPfx command) evts 0, 1, [command]⟩
  else if connectResult 1 then
    ⟨readLoop (expectedPfx command) evts 0, 2, [command]⟩
  else
    ⟨none, 2, []⟩

/-- `StormAudioAPI._clear_initial_responses`: while less than 2 seconds
have elapsed, read with a 0.1 s timeout; a received line is discarded and
the loop continues; end-of-stream or a read timeout breaks out.  Returns
the unconsumed remainder of the socket trace. -/
def drainLoop : List ReadEv → ℤ → List ReadEv
  | [], _ => []
  | e :: rest, t =>
    if 2000 ≤ t then e :: rest
    else
      match e.out with
      | ReadOut.timedOut => rest
      | ReadOut.eofSig => rest
      | ReadOut.line _ => drainLoop rest (t + e.dur)

/-- `connect()` followed by the first query: the post-connect drain runs
on the socket trace, and the first `send_query` reads from whatever the
drain left unconsumed. -/
def connectAndFirstQuery (evts : List ReadEv) (command : String) : Option String :=
  readLoop (expectedPfx command) (drainLoop evts 0) 0

/-- An event whose outcome is a received line. -/
def isLineEv (e : ReadEv) : Bool :=
  match e.out with
  | ReadOut.line _ => true
  | _ => false

lemma sumDur_nonneg (l : List ReadEv) (h : ∀ e ∈ l, 0 ≤ e.dur) : 0 ≤ sumDur l := by
  induction l with
  | nil => simp [sumDur]
  | cons e es ih =>
    have h1 := h e (List.mem_cons_self e es)
    have h2 := ih (fun e' he' => h e' (List.mem_cons_of_mem e he'))
    rw [sumDur]
    omega

/-- If every line of the trace that matches the expected reply string is
only readable once 3 seconds have elapsed, the read loop returns none. -/
lemma readLoop_none (pfx : String) :
    ∀ (evts : List ReadEv) (t : ℤ),
      (∀ pre e rest s, evts = pre ++ e :: rest → e.out = ReadOut.line s →
        startsWithStr (pyStrip s) pfx = true → 3000 ≤ t + sumDur pre) →
      readLoop pfx evts t = none := by
  intro evts
  induction evts with
  | nil => intro t _; rfl
  | cons e rest ih =>
    intro t h
    by_cases ht : (3000:ℤ) ≤ t
    · simp [readLoop, ht]
    · have hrec : ∀ pre e' rest' s, rest = pre ++ e' :: rest' → e'.out = ReadOut.line s →
          startsWithStr (pyStrip s) pfx = true → 3000 ≤ (t + e.dur) + sumDur pre := by
        intro pre e' rest' s hsplit hline hm
        have hall := h (e :: pre) e' rest' s (by rw [hsplit]; rfl) hline hm
        rw [sumDur] at hall
        omega
      cases ho : e.out with
      | timedOut =>
        simp only [readLoop, ht, if_false, ho]
        exact ih (t + e.dur) hrec
      | eofSig => simp [readLoop, ht, ho]
      | line s =>
        cases hsw : startsWithStr (pyStrip s) pfx with
        | true =>
          exfalso
          have hall := h [] e rest s rfl ho hsw
          simp [sumDur] at hall
          omega
        | false =>
          simp only [readLoop, ht, if_false, ho, hsw, Bool.false_eq_true]
          exact ih (t + e.dur) hrec

/-- If a matching line is readable while the 3-second window is still
open, with no matching line and no end-of-stream before it, the read
loop returns exactly that line (stripped), discarding what precedes. -/
lemma readLoop_first (pfx : String) :
    ∀ (pre : List ReadEv) (e : ReadEv) (rest : List ReadEv) (s : String) (t : ℤ),
      e.out = ReadOut.line s →
      startsWithStr (pyStrip s) pfx = true →
      (∀ e2 ∈ pre, ∀ s2, e2.out = ReadOut.line s2 →
        startsWithStr (pyStrip s2) pfx = false) →
      (∀ e2 ∈ pre, e2.out ≠ ReadOut.eofSig) →
      (∀ e2 ∈ pre, 0 ≤ e2.dur) →
      t + sumDur pre < 3000 →
      readLoop pfx (pre ++ e :: rest) t = some (pyStrip s) := by
  intro pre
  induction pre with
  | nil =>
    intro e rest s t hline hm _ _ _ hlt
    rw [sumDur] at hlt
    have ht : ¬ (3000:ℤ) ≤ t := by omega
    simp [readLoop, ht, hline, hm]
  | cons e2 pre' ih =>
    intro e rest s t hline hm hnomatch hnoeof hdur hlt
    have hd2 : 0 ≤ e2.dur := hdur e2 (List.mem_cons_self _ _)
    have hdpre : 0 ≤ sumDur pre' :=
      sumDur_nonneg pre' (fun x hx => hdur x (List.mem_cons_of_mem _ hx))
    rw [sumDur] at hlt
    have ht : ¬ (3000:ℤ) ≤ t := by omega
    have htail := ih e rest s (t + e2.dur) hline hm
      (fun x hx => hnomatch x (List.mem_cons_of_mem _ hx))
      (fun x hx => hnoeof x (List.mem_cons_of_mem _ hx))
      (fun x hx => hdur x (List.mem_cons_of_mem _ hx)) (by omega)
    cases ho : e2.out with
    | timedOut =>
      simp only [List.cons_append, readLoop, ht, if_false, ho]
      exact htail
    | eofSig => exact absurd ho (hnoeof e2 (List.mem_cons_self _ _))
    | line s2 =>
      have hf := hnomatch e2 (List.mem_cons_self _ _) s2 ho
      simp only [List.cons_append, readLoop, ht, if_false, ho, hf, Bool.false_eq_true]
      exact htail

/-- C2: `send_query` (connected case) returns the first incoming line
starting with the command's expected reply string, discarding every
non-matching line that arrives before it without error, and returns none
when no line with that start arrives inside the timeout window. -/
theorem c2_query_correlation (cr : Nat → Bool) (evts : List ReadEv) (command : String) :
    ((∀ pre e rest s, evts = pre ++ e :: rest → e.out = ReadOut.line s →
        startsWithStr (pyStrip s) (expectedPfx command) = true → 3000 ≤ sumDur pre) →
      (sendQueryFull true cr evts command).reply = none)
    ∧ (∀ pre e rest s, evts = pre ++ e :: rest → e.out = ReadOut.line s →
        startsWithStr (pyStrip s) (expectedPfx command) = true →
        (∀ e2 ∈ pre, ∀ s2, e2.out = ReadOut.line s2 →
          startsWithStr (pyStrip s2) (expectedPfx command) = false) →
        (∀ e2 ∈ pre, e2.out ≠ ReadOut.eofSig) →
        (∀ e2 ∈ pre, 0 ≤ e2.dur) →
        sumDur pre < 3000 →
        (sendQueryFull true cr evts command).reply = some (pyStrip s)) := by
  have hred : (sendQueryFull true cr evts command).reply
      = readLoop (expectedPfx command) evts 0 := rfl
  constructor
  · intro h
    rw [hred]
    exact readLoop_none (expectedPfx command) evts 0
      (fun pre e rest s hsplit hline hm => by
        have hall := h pre e rest s hsplit hline hm
        omega)
  · intro pre e rest s hsplit hline hm hnomatch hnoeof hdur hlt
    rw [hred, hsplit]
    exact readLoop_first (expectedPfx command) pre e rest s 0 hline hm
      hnomatch hnoeof hdur (by omega)

/-- Closed instance of `c2_query_correlation`: an unrelated volume reply
arrives before the power reply; the query returns the power line. -/
theorem c2_witness :
    (sendQueryFull true (fun _ => true)
      [⟨1000, ReadOut.line "ssp.vol.[-20]"⟩, ⟨1000, ReadOut.line "ssp.power.on"⟩]
      CMD_POWER_QUERY).reply = some "ssp.power.on" := by
  have h := (c2_query_correlation (fun _ => true)
      [⟨1000, ReadOut.line "ssp.vol.[-20]"⟩, ⟨1000, ReadOut.line "ssp.power.on"⟩]
      CMD_POWER_QUERY).2
    [⟨1000, ReadOut.line "ssp.vol.[-20]"⟩] ⟨1000, ReadOut.line "ssp.power.on"⟩ []
    "ssp.power.on" rfl rfl (by decide)
    (by
      intro e2 he2 s2 hs2
      rw [List.mem_singleton] at he2
      subst he2
      cases hs2
      decide)
    (by decide) (by decide) (by decide)
  exact h.trans (by decide)

/-- C6 (counterexample): the claim says a failed connect attempt is
retried once within the same `send_query` call.  With a connect oracle
whose first attempt fails and whose second would succeed, the code makes
exactly one attempt and returns none, while the spec-modelled retrying
variant would reconnect and return the reply. -/
theorem c6_counterexample :
    sendQueryFull false (fun n => n == 1)
      [⟨1000, ReadOut.line "ssp.power.on"⟩] CMD_POWER_QUERY
      = ⟨none, 1, []⟩
    ∧ (sendQuerySpecRetry false (fun n => n == 1)
        [⟨1000, ReadOut.line "ssp.power.on"⟩] CMD_POWER_QUERY).reply
      = some "ssp.power.on" := by
  constructor
  · rfl
  · decide

/-- C6 (amended): when not connected, `send_query` makes exactly one
lazy connect attempt before writing; if that single attempt fails the
call writes nothing and returns none — there is no retry.  When already
connected, no connect attempt is made. -/
theorem c6_lazy_connect_amended (cr : Nat → Bool) (evts : List ReadEv) (command : String) :
    (sendQueryFull true cr evts command).connectAttempts = 0
    ∧ (cr 0 = true →
        sendQueryFull false cr evts command
          = ⟨readLoop (expectedPfx command) evts 0, 1, [command]⟩)
    ∧ (cr 0 = false →
        sendQueryFull false cr evts command = ⟨none, 1, []⟩) := by
  refine ⟨rfl, ?_, ?_⟩
  · intro h
    simp [sendQueryFull, h]
  · intro h
    simp [sendQueryFull, h]

/-- Closed instance of `c6_lazy_connect_amended` with an always-failing
connect oracle. -/
theorem c6_amended_witness :
    sendQueryFull false (fun _ => false) [] CMD_POWER_QUERY = ⟨none, 1, []⟩ :=
  (c6_lazy_connect_amended (fun _ => false) [] CMD_POWER_QUERY).2.2 rfl

/-- C7 (counterexample): the claim says every unsolicited line pushed
during the ~2-second post-connect window is discarded and never returned
by the first query.  Here the device pushes a volume line at once, is
silent for ~0.1 s (the drain's per-read timeout fires, so the drain
stops), then pushes `ssp.power.on` well inside the 2-second window.
That line survives the drain and is returned as the result of the first
query. -/
theorem c7_counterexample :
    connectAndFirstQuery
      [⟨0, ReadOut.line "ssp.vol.[-20]"⟩, ⟨100, ReadOut.timedOut⟩,
        ⟨50, ReadOut.line "ssp.power.on"⟩]
      CMD_POWER_QUERY = some "ssp.power.on" := by
  decide

/-- C7 (amended): the post-connect drain discards exactly the lines
received back-to-back (no 0.1-second silent gap) within the 2-second
window; consequently, for any burst of unsolicited lines pushed
immediately after connection and followed by a silent gap, the first
query reads only from what follows the gap and never returns one of the
burst lines. -/
theorem c7_drain_amended :
    (∀ (pre rest : List ReadEv) (t : ℤ),
        (∀ e ∈ pre, isLineEv e = true) → (∀ e ∈ pre, 0 ≤ e.dur) →
        t + sumDur pre < 2000 →
        drainLoop (pre ++ rest) t = drainLoop rest (t + sumDur pre))
    ∧ (∀ (pre : List ReadEv) (d : ℤ) (rest : List ReadEv) (command : String),
        (∀ e ∈ pre, isLineEv e = true) → (∀ e ∈ pre, 0 ≤ e.dur) →
        sumDur pre < 2000 →
        connectAndFirstQuery (pre ++ { dur := d, out := ReadOut.timedOut } :: rest) command
          = readLoop (expectedPfx command) rest 0) := by
  have hmain : ∀ (pre rest : List ReadEv) (t : ℤ),
      (∀ e ∈ pre, isLineEv e = true) → (∀ e ∈ pre, 0 ≤ e.dur) →
      t + sumDur pre < 2000 →
      drainLoop (pre ++ rest) t = drainLoop rest (t + sumDur pre) := by
    intro pre
    induction pre with
    | nil => intro rest t _ _ _; simp [sumDur]
    | cons e pre' ih =>
      intro rest t hline hdur hlt
      have hd : 0 ≤ e.dur := hdur e (List.mem_cons_self _ _)
      have hdpre : 0 ≤ sumDur pre' :=
        sumDur_nonneg pre' (fun x hx => hdur x (List.mem_cons_of_mem _ hx))
      rw [sumDur] at hlt
      have ht : ¬ (2000:ℤ) ≤ t := by omega
      have hl : isLineEv e = true := hline e (List.mem_cons_self _ _)
      cases ho : e.out with
      | line s =>
        simp only [List.cons_append, drainLoop, ht, if_false, ho]
        exact (ih rest (t + e.dur)
          (fun x hx => hline x (List.mem_cons_of_mem _ hx))
          (fun x hx => hdur x (List.mem_cons_of_mem _ hx)) (by omega)).trans
          (by rw [sumDur]; congr 1; omega)
      | timedOut =>
        rw [isLineEv, ho] at hl
        cases hl
      | eofSig =>
        rw [isLineEv, ho] at hl
        cases hl
  refine ⟨hmain, ?_⟩
  intro pre d rest command hline hdur hlt
  have hdpre : 0 ≤ sumDur pre := sumDur_nonneg pre hdur
  rw [connectAndFirstQuery,
    hmain pre ({ dur := d, out := ReadOut.timedOut } :: rest) 0 hline hdur (by omega)]
  have ht : ¬ (2000:ℤ) ≤ sumDur pre := by omega
  simp [drainLoop, ht]

/-- Closed instance of `c7_drain_amended`: three unsolicited lines pushed
immediately after connect, then a silent gap; the first power query
returns the genuine reply arriving after the gap, none of the three. -/
theorem c7_amended_witness :
    connectAndFirstQuery
      ([⟨50, ReadOut.line "ssp.vol.[-10]"⟩, ⟨50, ReadOut.line "ssp.mute.off"⟩,
        ⟨50, ReadOut.line "ssp.input.[1]"⟩]
        ++ { dur := 100, out := ReadOut.timedOut } :: [⟨100, ReadOut.line "ssp.power.on"⟩])
      CMD_POWER_QUERY
    = some "ssp.power.on" := by
  rw [(c7_drain_amended).2
    [⟨50, ReadOut.line "ssp.vol.[-10]"⟩, ⟨50, ReadOut.line "ssp.mute.off"⟩,
      ⟨50, ReadOut.line "ssp.input.[1]"⟩]
    100 [⟨100, ReadOut.line "ssp.power.on"⟩] CMD_POWER_QUERY
    (by decide) (by decide) (by decide)]
  decide

/- ## Value parsing (Command Codec) -/

/-- Auxiliary: does some suffix of the second list start with `p`? -/
def hasSubAux (p : List Char) : List Char → Bool
  | [] => leadsWith [] p
  | c :: cs => leadsWith (c :: cs) p || hasSubAux p cs

/-- Python `pat in s` (substring containment). -/
def hasSubStr (s pat : String) : Bool := hasSubAux pat.toList s.toList

/-- Value of a digit string (most significant first). -/
def digitsVal : List Char → Nat → Nat
  | [], acc => acc
  | c :: cs, acc => digitsVal cs (acc * 10 + (c.toNat - '0'.toNat))

/-- Python `int(s)` on plain decimal strings: optional sign then digits;
anything else raises `ValueError`, modelled as none. -/
def pyParseInt (s : String) : Option Int :=
  match s.toList with
  | [] => none
  | '-' :: rest =>
    if (!rest.isEmpty) && rest.all Char.isDigit then
      some (-(digitsVal rest 0 : Int))
    else none
  | '+' :: rest =>
    if (!rest.isEmpty) && rest.all Char.isDigit then
      some ((digitsVal rest 0 : Int))
    else none
  | cs =>
    if cs.all Char.isDigit then some ((digitsVal cs 0 : Int)) else none

/-- Unsigned decimal, optionally with a fractional part. -/
def parseUFloat (cs : List Char) : Option ℚ :=
  let ip := cs.takeWhile (fun c => c ≠ '.')
  let rest := cs.dropWhile (fun c => c ≠ '.')
  match rest with
  | [] =>
    if (!ip.isEmpty) && ip.all Char.isDigit then
      some ((digitsVal ip 0 : ℚ))
    else none
  | _ :: frac =>
    if (ip.all Char.isDigit && frac.all Char.isDigit)
        && (!(ip.isEmpty && frac.isEmpty)) then
      some ((digitsVal ip 0 : ℚ) + (digitsVal frac 0 : ℚ) / (10 : ℚ) ^ frac.length)
    else none

/-- Python `float(s)` on plain decimal strings (device payloads carry no
exponents): optional sign then unsigned decimal. -/
def pyParseFloat (s : String) : Option ℚ :=
  match s.toList with
  | '-' :: rest => (parseUFloat rest).map (fun q => -q)
  | '+' :: rest => parseUFloat rest
  | cs => parseUFloat cs

/-- Index of the first occurrence of a character (Python `str.find`,
restricted to the found case). -/
def idxOfChar (c : Char) : List Char → Option Nat
  | [] => none
  | d :: ds => if d == c then some 0 else (idxOfChar c ds).map (· + 1)

/-- The bracket extraction common to the getters:
`start = response.find("[") + 1; end = response.find("]");
response[start:end]` guarded by `"[" in response and "]" in response`.
A `]` occurring before `[` yields the empty slice, as in Python. -/
def bracketPayload (s : String) : Option String :=
  match idxOfChar '[' s.toList, idxOfChar ']' s.toList with
  | some i, some j => some (String.mk ((s.toList.drop (i + 1)).take (j - (i + 1))))
  | _, _ => none

/- ## Coordinator poll cycle

The API getters run over an abstract device `dev : String → Option String`
standing for `send_query`: `dev c = none` when the query got no matching
reply (including every transport failure, which `send_query` swallows),
`dev c = some r` when it returned line `r`. -/

/-- `StormAudioAPI.get_power_state`. -/
def getPowerState (dev : String → Option String) : Option String :=
  match dev CMD_POWER_QUERY with
  | some r =>
    if !r.isEmpty then
      if hasSubStr r "ssp.power.on" then some STATE_ON
      else if hasSubStr r "ssp.power.off" then some STATE_OFF
      else none
    else none
  | none => none

/-- `StormAudioAPI.get_volume`: parse the bracketed payload as a float
and clamp to [-100, 0]; any parse failure yields none. -/
def getVolume (dev : String → Option String) : Option ℚ :=
  match dev CMD_VOLUME_QUERY with
  | some r =>
    if (!r.isEmpty) && hasSubStr r "ssp.vol." then
      match (bracketPayload r).bind pyParseFloat with
      | some v => some (max (-100) (min 0 v))
      | none => none
    else none
  | none => none

/-- `StormAudioAPI.get_mute_state`. -/
def getMuteState (dev : String → Option String) : Option Bool :=
  match dev CMD_MUTE_QUERY with
  | some r =>
    if !r.isEmpty then
      if hasSubStr r "ssp.mute.on" then some true
      else if hasSubStr r "ssp.mute.off" then some false
      else none
    else none
  | none => none

/-- `StormAudioAPI.get_input`. -/
def getInput (dev : String → Option String) : Option Int :=
  match dev CMD_INPUT_QUERY with
  | some r =>
    if (!r.isEmpty) && hasSubStr r "ssp.input." then
      (bracketPayload r).bind pyParseInt
    else none
  | none => none

/-- `StormAudioAPI.get_processor_state` (0=sleep, 1=initializing, 2=on). -/
def getProcessorState (dev : String → Option String) : Option Int :=
  match dev CMD_PROC_STATE with
  | some r =>
    if (!r.isEmpty) && hasSubStr r "ssp.procstate." then
      (bracketPayload r).bind pyParseInt
    else none
  | none => none

/-- One entry of the input catalog. -/
structure InputInfo where
  name : String
  id : Int
deriving DecidableEq, Repr

/-- `StormAudioDataUpdateCoordinator._get_input_list`: a hardcoded list
("Based on your logs"); no device command is issued to obtain it. -/
def getInputList : List InputInfo :=
  [⟨"Apple TV", 1⟩, ⟨"Video Game", 2⟩, ⟨"HDMI 3", 3⟩]

/-- The snapshot dictionary built by
`StormAudioDataUpdateCoordinator._async_update_data`. -/
structure SnapData where
  power_state : Option String
  processor_state : Option Int
  volume : Option ℚ
  muted : Option Bool
  input : Option Int
  input_list : List InputInfo
deriving DecidableEq, Repr

/-- The values `_async_update_data` assigns to volume/muted/input when
the processor is not fully on: `None`, `None`, `None`. -/
def poweredOffDefaults : Option ℚ × Option Bool × Option Int := (none, none, none)

/-- `StormAudioDataUpdateCoordinator._async_update_data`: query power and
processor state; only when processor state is 2 additionally query
volume, mute and input; the input catalog is computed once and cached on
the coordinator (`_input_list_cached`).  Returns the snapshot, the new
cache value, and the trace of wire query commands issued this cycle.
All transport errors are swallowed inside `send_query` (which returns
`None`), so under this transport model the body cannot raise and the
`UpdateFailed` re-raise in the source is unreachable. -/
def asyncUpdateData (dev : String → Option String)
    (cached : Option (List InputInfo)) :
    SnapData × Option (List InputInfo) × List String :=
  let power := getPowerState dev
  let proc := getProcessorState dev
  let vol := if proc = some 2 then getVolume dev else none
  let mutd := if proc = some 2 then getMuteState dev else none
  let inp := if proc = some 2 then getInput dev else none
  let ilist := cached.getD getInputList
  let trace := [CMD_POWER_QUERY, CMD_PROC_STATE]
    ++ (if proc = some 2 then [CMD_VOLUME_QUERY, CMD_MUTE_QUERY, CMD_INPUT_QUERY] else [])
  (⟨power, proc, vol, mutd, inp, ilist⟩, some ilist, trace)

/-- Python `str.upper()`. -/
def strUpper (s : String) : String := String.mk (s.toList.map Char.toUpper)

/-- Python `str.split()` (whitespace, empty pieces dropped). -/
def pySplitWs (s : String) : List String :=
  (s.split Char.isWhitespace).filter (fun x => !x.isEmpty)

/-- The dictionary built by the legacy coordinator
(`StormAudioCoordinator._async_update_data` in `coordinator.py`).
A field is `none` when the corresponding dictionary key is never
assigned or is assigned Python `None`; an empty-string (falsy) mute
reply is modelled as `some false`. -/
structure LegacyData where
  available : Bool
  power : Bool
  volume_level : Option ℚ
  muted : Option Bool
  input : Option Int
  preset : Option Int
deriving DecidableEq, Repr

/-- `StormAudioCoordinator._async_update_data` (`coordinator.py`): a
falsy `POWER?` reply raises `UpdateFailed` ("Could not connect to
StormAudio device"); otherwise the snapshot carries `available=True`,
with volume/mute/input/preset queried only when powered on, and fixed
defaults when powered off. -/
def legacyUpdate (dev : String → Option String) : Except String LegacyData :=
  match dev "POWER?" with
  | none => Except.error "Could not connect to StormAudio device"
  | some pr =>
    if pr.isEmpty then Except.error "Could not connect to StormAudio device"
    else
      let power := hasSubStr (strUpper pr) "ON"
      if power then
        let volume_level : Option ℚ :=
          match dev "VOLUME?" with
          | some vr =>
            if !vr.isEmpty then
              match (pySplitWs vr).get? 1 with
              | some p1 =>
                match pyParseFloat p1 with
                | some db => some (max 0 (min 1 ((db + 80) / 80)))
                | none => some (1/2)
              | none => none
            else none
          | none => none
        let muted : Option Bool :=
          match dev "MUTE?" with
          | some mr => some ((!mr.isEmpty) && hasSubStr (strUpper mr) "ON")
          | none => none
        let inputv : Option Int :=
          match dev "INPUT?" with
          | some ir =>
            if !ir.isEmpty then
              match (pySplitWs ir).get? 1 with
              | some p1 =>
                match pyParseInt p1 with
                | some n => some n
                | none => some 1
              | none => none
            else none
          | none => none
        let preset : Option Int :=
          match dev "PRESET?" with
          | some sr =>
            if !sr.isEmpty then
              match (pySplitWs sr).get? 1 with
              | some p1 => pyParseInt p1
              | none => none
            else none
          | none => none
        Except.ok ⟨true, true, volume_level, muted, inputv, preset⟩
      else
        Except.ok ⟨true, false, some 0, some false, some 1, none⟩

/-- C3 (counterexample): the claim says a transport failure during a
poll cycle never raises to the caller and marks `available=false`.  The
legacy coordinator's `_async_update_data` raises `UpdateFailed` when the
power query returns no response (total transport failure), instead of
returning an `available=false` snapshot. -/
theorem c3_counterexample :
    legacyUpdate (fun _ => none)
      = Except.error "Could not connect to StormAudio device" := rfl

/-- C3 (amended): in the primary coordinator
(`custom_components/stormaudio/media_player.py`) a transport failure is
swallowed inside `send_query`, so the poll cycle returns a snapshot
(never raising under this transport model) whose power and processor
fields are `None` (unknown, not "off"); no `available` flag is set.  The
legacy coordinator (`coordinator.py`) instead raises `UpdateFailed`. -/
theorem c3_transport_failure_amended (dev : String → Option String)
    (cached : Option (List InputInfo)) (h : ∀ c, dev c = none) :
    (asyncUpdateData dev cached).1.power_state = none
    ∧ (asyncUpdateData dev cached).1.processor_state = none
    ∧ (asyncUpdateData dev cached).1.volume = none
    ∧ (asyncUpdateData dev cached).1.muted = none
    ∧ (asyncUpdateData dev cached).1.input = none := by
  simp [asyncUpdateData, getPowerState, getProcessorState, h]

/-- Closed instance of `c3_transport_failure_amended` on a dead
transport. -/
theorem c3_amended_witness :
    (asyncUpdateData (fun _ => none) none).1.power_state = none
    ∧ (asyncUpdateData (fun _ => none) none).1.processor_state = none
    ∧ (asyncUpdateData (fun _ => none) none).1.volume = none
    ∧ (asyncUpdateData (fun _ => none) none).1.muted = none
    ∧ (asyncUpdateData (fun _ => none) none).1.input = none :=
  c3_transport_failure_amended (fun _ => none) none (fun _ => rfl)

/-- C4: whenever the snapshot's processor state is not fully-on (not 2),
its volume, mute and input fields are exactly the powered-off defaults
(`None`, `None`, `None`), never values from a prior cycle. -/
theorem c4_power_off_defaults (dev : String → Option String)
    (cached : Option (List InputInfo))
    (h : (asyncUpdateData dev cached).1.processor_state ≠ some 2) :
    ((asyncUpdateData dev cached).1.volume,
      (asyncUpdateData dev cached).1.muted,
      (asyncUpdateData dev cached).1.input) = poweredOffDefaults := by
  have hps : (asyncUpdateData dev cached).1.processor_state
      = getProcessorState dev := rfl
  rw [hps] at h
  simp [asyncUpdateData, poweredOffDefaults, h]

/-- Closed instance of `c4_power_off_defaults` on a device reporting
processor state 0 (sleep). -/
theorem c4_witness :
    ((asyncUpdateData (fun c => if c = CMD_PROC_STATE then some "ssp.procstate.[0]" else none)
        none).1.volume,
      (asyncUpdateData (fun c => if c = CMD_PROC_STATE then some "ssp.procstate.[0]" else none)
        none).1.muted,
      (asyncUpdateData (fun c => if c = CMD_PROC_STATE then some "ssp.procstate.[0]" else none)
        none).1.input) = poweredOffDefaults :=
  c4_power_off_defaults
    (fun c => if c = CMD_PROC_STATE then some "ssp.procstate.[0]" else none) none
    (by decide)

/-- A device whose replies report power on and processor fully on. -/
def devOn : String → Option String := fun c =>
  if c = CMD_POWER_QUERY then some "ssp.power.on"
  else if c = CMD_PROC_STATE then some "ssp.procstate.[2]"
  else if c = CMD_VOLUME_QUERY then some "ssp.vol.[-30]"
  else if c = CMD_MUTE_QUERY then some "ssp.mute.off"
  else if c = CMD_INPUT_QUERY then some "ssp.input.[1]"
  else none

/-- C8 (counterexample): the claim says the static input catalog is
obtained from the device on the first cycle.  On a first cycle (empty
cache) against a fully-on device, the commands sent are exactly the five
state queries — no catalog query (in particular not `ssp.input.list`) is
ever issued — yet the snapshot carries the hardcoded catalog. -/
theorem c8_counterexample :
    (asyncUpdateData devOn none).2.2
      = [CMD_POWER_QUERY, CMD_PROC_STATE, CMD_VOLUME_QUERY, CMD_MUTE_QUERY, CMD_INPUT_QUERY]
    ∧ CMD_INPUT_LIST ∉ (asyncUpdateData devOn none).2.2
    ∧ (asyncUpdateData devOn none).1.input_list = getInputList := by
  refine ⟨?_, ?_, ?_⟩ <;> decide

/-- C8 (amended): every poll cycle queries power state then processor
state first; it queries volume, mute and input exactly when processor
state equals 2; the input catalog is the hardcoded list, computed (not
queried from the device — no catalog command is ever sent) on the first
cycle and reused unchanged from the cache on all later cycles. -/
theorem c8_poll_cycle_amended (dev : String → Option String)
    (cached : Option (List InputInfo)) :
    ((asyncUpdateData dev cached).2.2).take 2 = [CMD_POWER_QUERY, CMD_PROC_STATE]
    ∧ ((asyncUpdateData dev cached).1.processor_state = some 2 →
        (asyncUpdateData dev cached).2.2
          = [CMD_POWER_QUERY, CMD_PROC_STATE, CMD_VOLUME_QUERY, CMD_MUTE_QUERY,
              CMD_INPUT_QUERY])
    ∧ ((asyncUpdateData dev cached).1.processor_state ≠ some 2 →
        (asyncUpdateData dev cached).2.2 = [CMD_POWER_QUERY, CMD_PROC_STATE])
    ∧ CMD_INPUT_LIST ∉ (asyncUpdateData dev cached).2.2
    ∧ (∀ l, cached = some l →
        (asyncUpdateData dev cached).1.input_list = l
        ∧ (asyncUpdateData dev cached).2.1 = some l)
    ∧ (cached = none →
        (asyncUpdateData dev cached).1.input_list = getInputList
        ∧ (asyncUpdateData dev cached).2.1 = some getInputList) := by
  have hps : (asyncUpdateData dev cached).1.processor_state
      = getProcessorState dev := rfl
  by_cases hp : getProcessorState dev = some 2
  · refine ⟨?_, ?_, ?_, ?_, ?_, ?_⟩
    · simp [asyncUpdateData, hp]
    · intro _
      simp [asyncUpdateData, hp]
    · intro hcontra
      rw [hps] at hcontra
      exact absurd hp hcontra
    · simp [asyncUpdateData, hp]
      decide
    · intro l hl
      subst hl
      simp [asyncUpdateData]
    · intro hl
      subst hl
      simp [asyncUpdateData]
  · refine ⟨?_, ?_, ?_, ?_, ?_, ?_⟩
    · simp [asyncUpdateData, hp]
    · intro hcontra
      rw [hps] at hcontra
      exact absurd hcontra hp
    · intro _
      simp [asyncUpdateData, hp]
    · simp [asyncUpdateData, hp]
      decide
    · intro l hl
      subst hl
      simp [asyncUpdateData]
    · intro hl
      subst hl
      simp [asyncUpdateData]

/-- Closed instance of `c8_poll_cycle_amended`: on a fully-on device the
first cycle issues exactly the five state queries. -/
theorem c8_amended_witness :
    (asyncUpdateData devOn none).2.2
      = [CMD_POWER_QUERY, CMD_PROC_STATE, CMD_VOLUME_QUERY, CMD_MUTE_QUERY,
          CMD_INPUT_QUERY] :=
  (c8_poll_cycle_amended devOn none).2.1 (by decide)

/- ## Power-on burst polling (C5) -/

/-- The fields of the coordinator data inspected by the burst loop. -/
structure PollData where
  power_state : Option String
  processor_state : Option Int
deriving DecidableEq, Repr

/-- The readiness check of `_poll_power_on_sequence`:
`current_data.get("power_state") == STATE_ON and
current_data.get("processor_state") == 2`, where `self.data or {}` makes
both lookups `None` when no data exists yet. -/
def burstReady (d : Option PollData) : Bool :=
  match d with
  | some p => p.power_state == some STATE_ON && p.processor_state == some 2
  | none => false

/-- The loop body of `_poll_power_on_sequence`: `data i` is the
coordinator data visible after the i-th refresh of the burst (0-based);
the second argument is the current attempt index, the third the
remaining fuel of `range(15)`.  Returns the number of polls performed
and whether the loop exited on the ready condition (true) or by
exhausting the budget with a warning (false). -/
def burstAux (data : Nat → Option PollData) (attempt : Nat) : Nat → Nat × Bool
  | 0 => (attempt, false)
  | n + 1 =>
    if burstReady (data attempt) then (attempt + 1, true)
    else burstAux data (attempt + 1) n

/-- `_poll_power_on_sequence`: up to 15 polls at 2-second spacing. -/
def burstRun (data : Nat → Option PollData) : Nat × Bool := burstAux data 0 15

/-- `handle_power_command`: the burst sequence runs exactly when the
power command was sent successfully and was a power-on. -/
def handlePowerCommand (sendOk powerOn : Bool) (data : Nat → Option PollData) :
    Option (Nat × Bool) :=
  if sendOk && powerOn then some (burstRun data) else none

lemma burstAux_ready (data : Nat → Option PollData) :
    ∀ (fuel a i : Nat), i < fuel → burstReady (data (a + i)) = true →
      (∀ j, j < i → burstReady (data (a + j)) = false) →
      burstAux data a fuel = (a + i + 1, true) := by
  intro fuel
  induction fuel with
  | zero => intro a i hi _ _; exact absurd hi (Nat.not_lt_zero i)
  | succ n ih =>
    intro a i hi hready hbefore
    cases i with
    | zero =>
      have h0 : burstReady (data a) = true := by simpa using hready
      simp [burstAux, h0]
    | succ i' =>
      have h0 : burstReady (data a) = false := by
        simpa using hbefore 0 (Nat.succ_pos i')
      rw [burstAux, if_neg (by simp [h0])]
      have hih := ih (a + 1) i' (by omega)
        (by
          have e : a + 1 + i' = a + (i' + 1) := by omega
          rw [e]
          exact hready)
        (fun j hj => by
          have e : a + 1 + j = a + (j + 1) := by omega
          rw [e]
          exact hbefore (j + 1) (by omega))
      have e2 : a + (i' + 1) + 1 = a + 1 + i' + 1 := by omega
      rw [e2]
      exact hih

lemma burstAux_exhaust (data : Nat → Option PollData) :
    ∀ (fuel a : Nat), (∀ j, j < fuel → burstReady (data (a + j)) = false) →
      burstAux data a fuel = (a + fuel, false) := by
  intro fuel
  induction fuel with
  | zero => intro a _; simp [burstAux]
  | succ n ih =>
    intro a h
    have h0 : burstReady (data a) = false := by simpa using h 0 (Nat.succ_pos n)
    rw [burstAux, if_neg (by simp [h0])]
    have hih := ih (a + 1) (fun j hj => by
      have e : a + 1 + j = a + (j + 1) := by omega
      rw [e]
      exact h (j + 1) (by omega))
    have e2 : a + (n + 1) = a + 1 + n := by omega
    rw [e2]
    exact hih

lemma burstAux_le (data : Nat → Option PollData) :
    ∀ (fuel a : Nat), (burstAux data a fuel).1 ≤ a + fuel := by
  intro fuel
  induction fuel with
  | zero => intro a; simp [burstAux]
  | succ n ih =>
    intro a
    rw [burstAux]
    by_cases hb : burstReady (data a) = true
    · rw [if_pos hb]
      omega
    · rw [if_neg hb]
      have := ih (a + 1)
      omega

/-- C5: after a successfully sent power-on command the burst loop runs
at most 15 polls; it exits with success exactly at the first poll whose
observed data has `power_state == on` and `processor_state == 2`; if no
poll among the 15 satisfies that, it performs all 15 and exits through
the warning path; the burst runs only for a successfully sent power-on
command. -/
theorem c5_burst_exit (data : Nat → Option PollData) :
    handlePowerCommand true true data = some (burstRun data)
    ∧ (burstRun data).1 ≤ 15
    ∧ (∀ i, i < 15 → burstReady (data i) = true →
        (∀ j, j < i → burstReady (data j) = false) →
        burstRun data = (i + 1, true))
    ∧ ((∀ i, i < 15 → burstReady (data i) = false) →
        burstRun data = (15, false))
    ∧ (∀ sendOk powerOn, sendOk = false ∨ powerOn = false →
        handlePowerCommand sendOk powerOn data = none) := by
  refine ⟨rfl, ?_, ?_, ?_, ?_⟩
  · simpa using burstAux_le data 15 0
  · intro i hi hr hb
    have h := burstAux_ready data 15 0 i hi (by simpa using hr)
      (fun j hj => by simpa using hb j hj)
    simpa using h
  · intro h
    have hx := burstAux_exhaust data 15 0 (fun j hj => by simpa using h j hj)
    simpa using hx
  · rintro sendOk powerOn (rfl | rfl) <;> simp [handlePowerCommand]

/-- Closed instance of `c5_burst_exit`: the device becomes ready on the
3rd poll (index 2); the burst performs exactly 3 polls and exits with
success. -/
theorem c5_witness :
    burstRun (fun n => if n = 2 then some ⟨some "on", some 2⟩ else some ⟨some "on", some 1⟩)
      = (3, true) := by
  have h := (c5_burst_exit
      (fun n => if n = 2 then some ⟨some "on", some 2⟩ else some ⟨some "on", some 1⟩)).2.2.1
    2 (by omega) (by decide)
    (by
      intro j hj
      interval_cases j <;> decide)
  exact h
